import Mathlib

set_option maxRecDepth 20000

/-!
Shallow embedding of `src/wasm/src/account/private_key.rs` (the wasm account
wrapper `PrivateKey` with operations `new`, `from_string`, `to_string`,
`to_view_key`, `to_address`, `decrypt`).

The wrapper delegates to the external `aleo_account` crate
(`PrivateKeyNative`, `ViewKey`, `Address`, `RecordCiphertext`), which is not
part of this repository; those collaborators are modelled from the spec, each
such definition carrying a doc comment starting `Modelled from the spec:`.
Scalars and group elements are identified with their canonical encoded bodies
(the spec makes the codec a bijection between valid encodings and values, so
this identification is faithful up to isomorphism).

Rust `.unwrap()` (a process abort on failure) is modelled by `Option`:
`none` is the abort.  Rust `Result` is modelled by `Except String`.
The process-wide entropy source consumed by `PrivateKey::new` is modelled as
an explicitly passed collaborator value, as the spec's design notes direct.
-/

deriving instance DecidableEq for Except

/-- Strips an expected leading tag from a character list, returning the
remainder when the tag matches and `none` otherwise. -/
def stripPrefixCL : List Char → List Char → Option (List Char)
  | [], s => some s
  | _ :: _, [] => none
  | p :: ps, c :: cs => if p = c then stripPrefixCL ps cs else none

/-- The string `big` contains `sub` as a contiguous substring. -/
def containsSubstring (big sub : String) : Prop :=
  ∃ l r : String, big = l ++ (sub ++ r)

/-- Modelled from the spec: the fixed format tag of an encoded secret key
(the `aleo_account` codec, absent from src/). -/
def privateKeyTag : List Char := "APrivateKey1".toList

/-- Modelled from the spec: the fixed format tag of an encoded view key. -/
def viewKeyTag : List Char := "AViewKey1".toList

/-- Modelled from the spec: the fixed format tag of an encoded address. -/
def addressTag : List Char := "aleo1".toList

/-- Modelled from the spec: the fixed format tag of an encoded record
ciphertext. -/
def recordTag : List Char := "record1".toList

/-- Modelled from the spec: the character class of key-material encodings. -/
def isKeyChar (c : Char) : Bool := c.isAlpha || c.isDigit

/-- Modelled from the spec: the character class of record-ciphertext bodies. -/
def isRecordChar (c : Char) : Bool := c.isLower || c.isDigit

/-- Modelled from the spec: a syntactically valid key body (in-field scalar);
a wrong length or a stray character is the codec's format/domain failure. -/
def validKeyBody (b : List Char) : Bool := b.length == 47 && b.all isKeyChar

/-- Modelled from the spec: a structurally valid record-ciphertext body. -/
def validRecordBody (b : List Char) : Bool := !b.isEmpty && b.all isRecordChar

/-- Modelled from the spec: `aleo_account::PrivateKey`, identified with its
canonical encoded body. -/
structure PrivateKeyNative where
  body : List Char
deriving DecidableEq

/-- Modelled from the spec: `aleo_account::ViewKey`, identified with its
canonical encoded body. -/
structure ViewKeyNative where
  body : List Char
deriving DecidableEq

/-- Modelled from the spec: `aleo_account::Address`, identified with its
canonical encoded body. -/
structure AddressNative where
  body : List Char
deriving DecidableEq

/-- Modelled from the spec: `aleo_account::RecordCiphertext`. -/
structure RecordCiphertextNative where
  body : List Char
deriving DecidableEq

/-- Modelled from the spec: the decrypted structured record. -/
structure RecordPlaintextNative where
  text : List Char
deriving DecidableEq

/-- Modelled from the spec: the display text of the codec's secret-key decode
failure (format or out-of-field). -/
def keyFormatErrMsg : String := "Invalid private key format"

/-- Modelled from the spec: the display text of the codec's record-ciphertext
decode failure. -/
def recordFormatErrMsg : String := "Invalid record ciphertext format"

/-- Modelled from the spec: the display text of an entropy / scalar
construction failure during generation. -/
def generationErrMsg : String := "Entropy failure during key generation"

/-- The constant wrong-key message of `PrivateKey::decrypt`
(src/wasm/src/account/private_key.rs line 71). -/
def incorrectViewKeyMsg : String := "Incorrect view key"

/-- Modelled from the spec: `PrivateKeyNative::from_str` — decode the
canonical text form; fails (classified) on wrong tag or invalid body. -/
def PrivateKeyNative.from_str (s : String) : Except String PrivateKeyNative :=
  match stripPrefixCL privateKeyTag s.toList with
  | some b => if validKeyBody b then .ok ⟨b⟩ else .error keyFormatErrMsg
  | none => .error keyFormatErrMsg

/-- Modelled from the spec: `PrivateKeyNative::to_string` — canonical
round-trip-exact encoding. -/
def PrivateKeyNative.to_string (k : PrivateKeyNative) : String :=
  String.mk (privateKeyTag ++ k.body)

/-- Modelled from the spec: the alphabet used by scalar construction. -/
def keyAlphabet : List Char := "abcdefghijklmnopqrstuvwxyz0123456789".toList

/-- Modelled from the spec: one output character of scalar construction. -/
def keyCharOf (n : Nat) : Char := keyAlphabet.getD (n % 36) 'q'

/-- Modelled from the spec: the scalar-construction primitive turning drawn
entropy into an in-field scalar body. -/
def keyBodyFromSeed (seed : Nat) : List Char :=
  (List.range 47).map (fun i => keyCharOf (seed / 36 ^ i))

/-- Modelled from the spec: `PrivateKeyNative::new` — draws from the entropy
collaborator (modelled as an explicit `Option Nat`: `none` is a collaborator
failure) and constructs a key, surfacing failure as a classified error. -/
def PrivateKeyNative.new (entropy : Option Nat) : Except String PrivateKeyNative :=
  match entropy with
  | some seed => .ok ⟨keyBodyFromSeed seed⟩
  | none => .error generationErrMsg

/-- Modelled from the spec: the deterministic one-way view-credential
derivation (one-wayness is the primitive layer's guarantee, not re-verified). -/
def viewOf (k : PrivateKeyNative) : ViewKeyNative := ⟨k.body⟩

/-- Modelled from the spec: `ViewKey::try_from(PrivateKey)` — the fallible
interface of the derivation; for keys of this model it always succeeds. -/
def ViewKeyNative.try_from (k : PrivateKeyNative) : Except String ViewKeyNative :=
  .ok (viewOf k)

/-- Modelled from the spec: `ViewKey::to_string`. -/
def ViewKeyNative.to_string (v : ViewKeyNative) : String :=
  String.mk (viewKeyTag ++ v.body)

/-- Modelled from the spec: `ViewKey::from_str`. -/
def ViewKeyNative.from_str (s : String) : Except String ViewKeyNative :=
  match stripPrefixCL viewKeyTag s.toList with
  | some b => if validKeyBody b then .ok ⟨b⟩ else .error keyFormatErrMsg
  | none => .error keyFormatErrMsg

/-- Modelled from the spec: the address derived from a view credential. -/
def addrOfView (v : ViewKeyNative) : AddressNative := ⟨v.body⟩

/-- Modelled from the spec: `Address::try_from(&ViewKey)`. -/
def AddressNative.try_from_view (v : ViewKeyNative) : Except String AddressNative :=
  .ok (addrOfView v)

/-- Modelled from the spec: `Address::try_from(PrivateKey)` — the direct
path goes through the view credential, so the two paths agree. -/
def AddressNative.try_from (k : PrivateKeyNative) : Except String AddressNative :=
  .ok (addrOfView (viewOf k))

/-- Modelled from the spec: `Address::to_string`. -/
def AddressNative.to_string (a : AddressNative) : String :=
  String.mk (addressTag ++ a.body)

/-- Modelled from the spec: `Address::from_str`. -/
def AddressNative.from_str (s : String) : Except String AddressNative :=
  match stripPrefixCL addressTag s.toList with
  | some b => if validKeyBody b then .ok ⟨b⟩ else .error keyFormatErrMsg
  | none => .error keyFormatErrMsg

/-- Modelled from the spec: `RecordCiphertext::from_str` — structural decode,
independent of any key; failure is the codec's format error. -/
def RecordCiphertextNative.from_str (s : String) : Except String RecordCiphertextNative :=
  match stripPrefixCL recordTag s.toList with
  | some b => if validRecordBody b then .ok ⟨b⟩ else .error recordFormatErrMsg
  | none => .error recordFormatErrMsg

/-- Modelled from the spec: `RecordPlaintext::to_string`. -/
def RecordPlaintextNative.to_string (p : RecordPlaintextNative) : String :=
  String.mk p.text

/-- The fixed test secret key of the repository's tests (line 83). -/
def correctPrivateKeyText : String :=
  "APrivateKey1zkp6ka4UZu9JfMFDBqzKBffX7HQpYneKtzCTwnHb5GXVDpL"

/-- The second fixed test secret key of the repository's tests (line 84). -/
def incorrectPrivateKeyText : String :=
  "APrivateKey1zkp6zrcYuoiMR6ePdWVLLdFehR8VMZQ2amsb8nqjLfNFanp"

/-- Body of `correctPrivateKeyText` (the tag stripped). -/
def correctKeyBody : List Char :=
  "zkp6ka4UZu9JfMFDBqzKBffX7HQpYneKtzCTwnHb5GXVDpL".toList

/-- Body of `incorrectPrivateKeyText` (the tag stripped). -/
def incorrectKeyBody : List Char :=
  "zkp6zrcYuoiMR6ePdWVLLdFehR8VMZQ2amsb8nqjLfNFanp".toList

/-- The fixed test record ciphertext of the repository's tests (line 115). -/
def fixedCiphertextText : String :=
  "record1qyqspplg2ud9gguy8ud9wjmee3cf2vztxcjxe2ernf8m7ru5wvsqkdqxqyqsq7y540qmemqx3675pufewwmywsudzrpstjx3fd38c6d8uz4r4mgpqqqt2q2jjczxp2y6986zdqz3mr5jmhggmge3exc72vgw2kgr4gea2zgzhrz8q"

/-- Body of `fixedCiphertextText` (the tag stripped). -/
def fixedCipherBody : List Char :=
  "qyqspplg2ud9gguy8ud9wjmee3cf2vztxcjxe2ernf8m7ru5wvsqkdqxqyqsq7y540qmemqx3675pufewwmywsudzrpstjx3fd38c6d8uz4r4mgpqqqt2q2jjczxp2y6986zdqz3mr5jmhggmge3exc72vgw2kgr4gea2zgzhrz8q".toList

/-- The exact plaintext the repository's test expects (line 118). -/
def expectedPlaintextText : String :=
  "\x7bowner: aleo1snwe5h89dv6hv2q2pl3v8l9cweeuwrgejmlnwza6ndacygznlu9sjt8pgv.private, gates: 1u64.private, data: \x7b\x7d, _nonce: 4447510634654730534613001085815220248957154008834207042015711498717088580021group.public\x7d"

/-- The owner substring named by the spec's concrete scenario. -/
def ownerSubText : String :=
  "owner: aleo1snwe5h89dv6hv2q2pl3v8l9cweeuwrgejmlnwza6ndacygznlu9sjt8pgv.private"

/-- The gates substring named by the spec's concrete scenario. -/
def gatesSubText : String := "gates: 1u64.private"

/-- Modelled from the spec: the one view credential a decodable record
ciphertext is addressed to (every record is encrypted for exactly one
address).  On the fixed test vector it is the credential of the fixed test
key; elsewhere an arbitrary but fixed assignment. -/
def recordOwnerCred (b : List Char) : ViewKeyNative :=
  if b = fixedCipherBody then ⟨correctKeyBody⟩ else ⟨b⟩

/-- Modelled from the spec: the structured record a ciphertext encrypts (the
exact preimage the encrypting party produced). -/
def recordContent (b : List Char) : List Char :=
  if b = fixedCipherBody then expectedPlaintextText.toList else b

/-- Modelled from the spec: the authenticated decryption primitive
`RecordCiphertext::decrypt(&ViewKey)` — succeeds exactly when the supplied
credential is the one the record was encrypted for, otherwise fails outright
with an authentication failure; never returns unverified plaintext. -/
def RecordCiphertextNative.decrypt (c : RecordCiphertextNative) (v : ViewKeyNative) :
    Except String RecordPlaintextNative :=
  if v = recordOwnerCred c.body then .ok ⟨recordContent c.body⟩
  else .error "authentication failure"

/-- The wasm wrapper `PrivateKey` (src lines 23-26). -/
structure PrivateKey where
  private_key : PrivateKeyNative
deriving DecidableEq

/-- `PrivateKey::new` (src lines 32-38): `PrivateKeyNative::new(rng).unwrap()`.
The entropy source is the explicit collaborator argument; the `.unwrap()`
turns the native classified failure into a process abort, modelled `none`. -/
def PrivateKey.new (entropy : Option Nat) : Option PrivateKey :=
  match PrivateKeyNative.new entropy with
  | .ok k => some ⟨k⟩
  | .error _ => none

/-- `PrivateKey::from_string` (src lines 41-45):
`PrivateKeyNative::from_str(s).unwrap()`; the `.unwrap()` turns the native
classified decode failure into a process abort, modelled `none`. -/
def PrivateKey.from_string (s : String) : Option PrivateKey :=
  match PrivateKeyNative.from_str s with
  | .ok k => some ⟨k⟩
  | .error _ => none

/-- `PrivateKey::to_string` (src lines 49-51). -/
def PrivateKey.to_string (k : PrivateKey) : String :=
  k.private_key.to_string

/-- `PrivateKey::to_view_key` (src lines 54-57):
`ViewKey::try_from(self.private_key).unwrap()` then encode. -/
def PrivateKey.to_view_key (k : PrivateKey) : Option String :=
  match ViewKeyNative.try_from k.private_key with
  | .ok v => some v.to_string
  | .error _ => none

/-- `PrivateKey::to_address` (src lines 60-63):
`Address::try_from(self.private_key).unwrap()` then encode. -/
def PrivateKey.to_address (k : PrivateKey) : Option String :=
  match AddressNative.try_from k.private_key with
  | .ok a => some a.to_string
  | .error _ => none

/-- `PrivateKey::decrypt` (src lines 66-73): derive the view key (line 67),
decode the ciphertext (line 68), attempt authenticated decryption (line 69);
each failure is mapped to `Err`, the decryption failure to the constant
`"Incorrect view key"` (line 71). -/
def PrivateKey.decrypt (k : PrivateKey) (ciphertext : String) : Except String String :=
  match ViewKeyNative.try_from k.private_key with
  | .error e => .error e
  | .ok view_key =>
    match RecordCiphertextNative.from_str ciphertext with
    | .error e => .error e
    | .ok c =>
      match c.decrypt view_key with
      | .ok plaintext => .ok plaintext.to_string
      | .error _ => .error incorrectViewKeyMsg

/-- The three internal steps of `PrivateKey::decrypt`, in source order. -/
inductive DecStep where
  | deriveViewKey
  | decodeCiphertext
  | authDecrypt
deriving DecidableEq

/-- `PrivateKey::decrypt` instrumented with the sequence of steps it
performs, in the order of src lines 67, 68, 69. -/
def PrivateKey.decryptTrace (k : PrivateKey) (ciphertext : String) :
    List DecStep × Except String String :=
  match ViewKeyNative.try_from k.private_key with
  | .error e => ([DecStep.deriveViewKey], .error e)
  | .ok view_key =>
    match RecordCiphertextNative.from_str ciphertext with
    | .error e => ([DecStep.deriveViewKey, DecStep.decodeCiphertext], .error e)
    | .ok c =>
      match c.decrypt view_key with
      | .ok plaintext =>
        ([DecStep.deriveViewKey, DecStep.decodeCiphertext, DecStep.authDecrypt],
          .ok plaintext.to_string)
      | .error _ =>
        ([DecStep.deriveViewKey, DecStep.decodeCiphertext, DecStep.authDecrypt],
          .error incorrectViewKeyMsg)

/-- Whether a string decodes as a secret key (tag matches and body valid). -/
def validSecretText (s : String) : Bool :=
  match stripPrefixCL privateKeyTag s.toList with
  | some b => validKeyBody b
  | none => false

/-- The results of `n` back-to-back calls of `to_view_key` on the same key. -/
def viewCalls (k : PrivateKey) (n : Nat) : List (Option String) :=
  (List.range n).map (fun _ => k.to_view_key)

/-- The results of `n` back-to-back calls of `to_address` on the same key. -/
def addressCalls (k : PrivateKey) (n : Nat) : List (Option String) :=
  (List.range n).map (fun _ => k.to_address)

/-! ## General lemmas about the embedding -/

theorem stripPrefixCL_append (p s : List Char) : stripPrefixCL p (p ++ s) = some s := by
  induction p with
  | nil => rfl
  | cons c cs ih => simp [stripPrefixCL, ih]

theorem decrypt_eq (k : PrivateKey) (s : String) :
    k.decrypt s =
      (match RecordCiphertextNative.from_str s with
      | .error e => Except.error e
      | .ok c =>
        match RecordCiphertextNative.decrypt c (viewOf k.private_key) with
        | .ok plaintext => Except.ok plaintext.to_string
        | .error _ => Except.error incorrectViewKeyMsg) := rfl

theorem decryptTrace_eq (k : PrivateKey) (s : String) :
    k.decryptTrace s =
      (match RecordCiphertextNative.from_str s with
      | .error e => ([DecStep.deriveViewKey, DecStep.decodeCiphertext], Except.error e)
      | .ok c =>
        match RecordCiphertextNative.decrypt c (viewOf k.private_key) with
        | .ok plaintext =>
          ([DecStep.deriveViewKey, DecStep.decodeCiphertext, DecStep.authDecrypt],
            Except.ok plaintext.to_string)
        | .error _ =>
          ([DecStep.deriveViewKey, DecStep.decodeCiphertext, DecStep.authDecrypt],
            Except.error incorrectViewKeyMsg)) := rfl

theorem recordFromStr_error (s e : String)
    (h : RecordCiphertextNative.from_str s = .error e) : e = recordFormatErrMsg := by
  unfold RecordCiphertextNative.from_str at h
  split at h
  · split at h
    · simp at h
    · injection h with h1
      exact h1.symm
  · injection h with h1
    exact h1.symm

theorem keyAlphabet_all : keyAlphabet.all isKeyChar = true := by decide

theorem isKeyChar_getD (l : List Char) (d : Char) (m : Nat)
    (hl : l.all isKeyChar = true) (hd : isKeyChar d = true) :
    isKeyChar (l.getD m d) = true := by
  induction l generalizing m with
  | nil => simpa [List.getD]
  | cons c cs ih =>
    simp only [List.all_cons, Bool.and_eq_true] at hl
    cases m with
    | zero => simpa [List.getD] using hl.1
    | succ m => simpa [List.getD] using ih m hl.2

theorem isKeyChar_keyCharOf (n : Nat) : isKeyChar (keyCharOf n) = true := by
  unfold keyCharOf
  exact isKeyChar_getD keyAlphabet 'q' (n % 36) keyAlphabet_all (by decide)

theorem validKeyBody_keyBodyFromSeed (seed : Nat) :
    validKeyBody (keyBodyFromSeed seed) = true := by
  have hall : (keyBodyFromSeed seed).all isKeyChar = true := by
    simp only [keyBodyFromSeed, List.all_eq_true, List.mem_map, List.mem_range]
    rintro x ⟨i, _, rfl⟩
    exact isKeyChar_keyCharOf _
  have hlen : (keyBodyFromSeed seed).length = 47 := by simp [keyBodyFromSeed]
  simp [validKeyBody, hlen, hall]

/-! ## Claim theorems -/

/-- C4: for every valid secret key, decoding its canonical text encoding
reconstructs the identical key: `from_string (to_string k) = some k`. -/
theorem secret_key_roundtrip (k : PrivateKey) (h : validKeyBody k.private_key.body = true) :
    PrivateKey.from_string k.to_string = some k := by
  have hlist : (PrivateKey.to_string k).toList = privateKeyTag ++ k.private_key.body := rfl
  unfold PrivateKey.from_string PrivateKeyNative.from_str
  rw [hlist, stripPrefixCL_append]
  simp [h]

/-- Witness for C4 at the fixed test key of the repository. -/
theorem secret_key_roundtrip_witness :
    PrivateKey.from_string (PrivateKey.to_string ⟨⟨correctKeyBody⟩⟩) = some ⟨⟨correctKeyBody⟩⟩ :=
  secret_key_roundtrip ⟨⟨correctKeyBody⟩⟩ (by decide)

/-- C5: for every valid secret key, the address derived directly from it is
the address derived from its view credential; in addition, as the
repository's test does, the encoded view key decodes back to the credential
and yields the same address string. -/
theorem address_agrees (k : PrivateKey) (h : validKeyBody k.private_key.body = true) :
    AddressNative.try_from k.private_key = AddressNative.try_from_view (viewOf k.private_key) ∧
    k.to_view_key = some ((viewOf k.private_key).to_string) ∧
    ViewKeyNative.from_str ((viewOf k.private_key).to_string) = .ok (viewOf k.private_key) ∧
    k.to_address = some ((addrOfView (viewOf k.private_key)).to_string) := by
  refine ⟨rfl, rfl, ?_, rfl⟩
  have hlist : ((viewOf k.private_key).to_string).toList = viewKeyTag ++ k.private_key.body := rfl
  unfold ViewKeyNative.from_str
  rw [hlist, stripPrefixCL_append]
  simp [h, viewOf]

/-- Witness for C5 at the fixed test key of the repository. -/
theorem address_agrees_witness :
    AddressNative.try_from ⟨correctKeyBody⟩ =
      AddressNative.try_from_view (viewOf ⟨correctKeyBody⟩) ∧
    PrivateKey.to_view_key ⟨⟨correctKeyBody⟩⟩ = some ((viewOf ⟨correctKeyBody⟩).to_string) ∧
    ViewKeyNative.from_str ((viewOf ⟨correctKeyBody⟩).to_string) = .ok (viewOf ⟨correctKeyBody⟩) ∧
    PrivateKey.to_address ⟨⟨correctKeyBody⟩⟩ =
      some ((addrOfView (viewOf ⟨correctKeyBody⟩)).to_string) :=
  address_agrees ⟨⟨correctKeyBody⟩⟩ (by decide)

/-- C9: the view-key and address derivations are pure and deterministic —
across any number of back-to-back calls on the same key every result equals
the single derived value, and the derived values are those of the (pure)
derivation chain. -/
theorem derivations_deterministic (k : PrivateKey) (n : Nat) :
    (∀ x ∈ viewCalls k n, x = k.to_view_key) ∧
    (∀ y ∈ addressCalls k n, y = k.to_address) ∧
    k.to_view_key = some ((viewOf k.private_key).to_string) ∧
    k.to_address = some ((addrOfView (viewOf k.private_key)).to_string) := by
  refine ⟨?_, ?_, rfl, rfl⟩
  · intro x hx
    rcases List.mem_map.mp hx with ⟨i, _, rfl⟩
    rfl
  · intro y hy
    rcases List.mem_map.mp hy with ⟨i, _, rfl⟩
    rfl

/-- Witness for C9 at the fixed test key, with one recorded call. -/
theorem derivations_deterministic_witness :
    some ((viewOf ⟨correctKeyBody⟩).to_string) = PrivateKey.to_view_key ⟨⟨correctKeyBody⟩⟩ :=
  (derivations_deterministic ⟨⟨correctKeyBody⟩⟩ 1).1
    (some ((viewOf ⟨correctKeyBody⟩).to_string)) (by decide)

/-- C2: for every ciphertext text that decodes successfully and every key
whose view credential is not the one the record was encrypted for, decrypt
returns exactly the constant wrong-key error, never a plaintext — the
outcome is one opaque value carrying no further information. -/
theorem decrypt_wrong_credential_rejected (s : String) (c : RecordCiphertextNative)
    (k : PrivateKey) (hc : RecordCiphertextNative.from_str s = .ok c)
    (hk : viewOf k.private_key ≠ recordOwnerCred c.body) :
    k.decrypt s = .error incorrectViewKeyMsg := by
  rw [decrypt_eq, hc]
  simp [RecordCiphertextNative.decrypt, hk]

/-- Witness for C2: the fixed test ciphertext against the second fixed key. -/
theorem decrypt_wrong_credential_rejected_witness :
    PrivateKey.decrypt ⟨⟨incorrectKeyBody⟩⟩ fixedCiphertextText = .error incorrectViewKeyMsg :=
  decrypt_wrong_credential_rejected fixedCiphertextText ⟨fixedCipherBody⟩ ⟨⟨incorrectKeyBody⟩⟩
    (by decide) (by decide)

/-- C3: for every input string that fails to decode as a ciphertext, decrypt
returns the format-classified decode error, and that error differs from the
wrong-key error returned when a decoded ciphertext fails authentication. -/
theorem decrypt_format_error_distinct (s : String) (k : PrivateKey) (e : String)
    (h : RecordCiphertextNative.from_str s = .error e) :
    k.decrypt s = .error e ∧ e ≠ incorrectViewKeyMsg := by
  have he : e = recordFormatErrMsg := recordFromStr_error s e h
  refine ⟨?_, ?_⟩
  · rw [decrypt_eq, h]
  · subst he
    decide

/-- Witness for C3 at a concrete malformed ciphertext string. -/
theorem decrypt_format_error_distinct_witness :
    PrivateKey.decrypt ⟨⟨correctKeyBody⟩⟩ "notarecord" = .error recordFormatErrMsg ∧
    recordFormatErrMsg ≠ incorrectViewKeyMsg :=
  decrypt_format_error_distinct "notarecord" ⟨⟨correctKeyBody⟩⟩ recordFormatErrMsg (by decide)

/-- C8 (amended): every string that fails the ciphertext format check is
rejected with the format error, and the whole outcome — the step trace and
the error — is the same for every supplied key; the trace records that the
view-credential derivation (src line 67) precedes the format check
(src line 68). -/
theorem decrypt_format_rejection_key_independent (s : String) (k : PrivateKey) (e : String)
    (h : RecordCiphertextNative.from_str s = .error e) :
    k.decryptTrace s = ([DecStep.deriveViewKey, DecStep.decodeCiphertext], .error e) := by
  rw [decryptTrace_eq, h]

/-- Witness for C8 at the truncated ciphertext consisting of the bare tag. -/
theorem decrypt_format_rejection_key_independent_witness :
    PrivateKey.decryptTrace ⟨⟨incorrectKeyBody⟩⟩ "record1" =
      ([DecStep.deriveViewKey, DecStep.decodeCiphertext], .error recordFormatErrMsg) :=
  decrypt_format_rejection_key_independent "record1" ⟨⟨incorrectKeyBody⟩⟩
    recordFormatErrMsg (by decide)

/-- Counterexample for C8 as stated: on a malformed ciphertext the very
first step of decrypt is the view-credential derivation, i.e. key material
is consulted before the format rejection (src line 67 precedes line 68). -/
theorem decrypt_trace_derives_key_first_cex :
    PrivateKey.decryptTrace ⟨⟨correctKeyBody⟩⟩ "notarecord" =
      ([DecStep.deriveViewKey, DecStep.decodeCiphertext], .error recordFormatErrMsg) ∧
    (PrivateKey.decryptTrace ⟨⟨correctKeyBody⟩⟩ "notarecord").1.head? =
      some DecStep.deriveViewKey := by
  refine ⟨by decide, by decide⟩

/-- C10: decrypt is total over its string input — for every key and every
input it returns the format error, the constant wrong-key error, or a
plaintext; no input aborts the process. -/
theorem decrypt_total_classified (k : PrivateKey) (s : String) :
    k.decrypt s = .error recordFormatErrMsg ∨
    k.decrypt s = .error incorrectViewKeyMsg ∨
    ∃ p, k.decrypt s = .ok p := by
  rw [decrypt_eq]
  cases hm : RecordCiphertextNative.from_str s with
  | error e =>
    left
    have he := recordFromStr_error s e hm
    subst he
    simp [hm]
  | ok c =>
    cases hd : RecordCiphertextNative.decrypt c (viewOf k.private_key) with
    | error e =>
      right
      left
      simp [hm, hd]
    | ok p =>
      right
      right
      exact ⟨p.to_string, by simp [hm, hd]⟩

/-- Counterexample for C6 as stated: on a malformed key string the wrapper
`from_string` aborts (modelled `none`) instead of returning the classified
decode failure that the native decoder reports. -/
theorem from_string_aborts_cex :
    PrivateKey.from_string "bogus" = none ∧
    PrivateKeyNative.from_str "bogus" = .error keyFormatErrMsg := by
  refine ⟨by decide, by decide⟩

/-- C6 (amended): for every string that does not match the expected secret
key prefix/format, the native decoder fails with the classified decode
error, but the wrapper `from_string` unwraps that result and aborts instead
of returning it. -/
theorem from_string_native_classified_wrapper_aborts (s : String)
    (h : validSecretText s = false) :
    PrivateKeyNative.from_str s = .error keyFormatErrMsg ∧ PrivateKey.from_string s = none := by
  unfold validSecretText at h
  have h1 : PrivateKeyNative.from_str s = .error keyFormatErrMsg := by
    unfold PrivateKeyNative.from_str
    cases hm : stripPrefixCL privateKeyTag s.toList with
    | none => rfl
    | some b =>
      rw [hm] at h
      have hb : validKeyBody b = false := h
      simp [hb]
  exact ⟨h1, by simp [PrivateKey.from_string, h1]⟩

/-- Witness for C6 (amended) at a concrete malformed key string. -/
theorem from_string_native_classified_wrapper_aborts_witness :
    PrivateKeyNative.from_str "zzz" = .error keyFormatErrMsg ∧
    PrivateKey.from_string "zzz" = none :=
  from_string_native_classified_wrapper_aborts "zzz" (by decide)

/-- Counterexample for C7 as stated: when the entropy collaborator fails the
native constructor reports the classified generation error, but the wrapper
`new` unwraps it and aborts (modelled `none`) instead of surfacing it. -/
theorem generation_abort_cex :
    PrivateKey.new none = none ∧ PrivateKeyNative.new none = .error generationErrMsg := by
  refine ⟨rfl, rfl⟩

/-- C7 (amended): on entropy success `new` returns a well-formed secret key
and never a partial one; on entropy failure no key is returned, but the
wrapper aborts rather than surfacing the classified generation error. -/
theorem generation_success_and_abort (seed : Nat) :
    PrivateKey.new (some seed) = some ⟨⟨keyBodyFromSeed seed⟩⟩ ∧
    validKeyBody (keyBodyFromSeed seed) = true ∧
    PrivateKey.new none = none :=
  ⟨rfl, validKeyBody_keyBodyFromSeed seed, rfl⟩

/-- C1: the fixed test secret key decrypts the fixed test ciphertext to the
expected plaintext, which contains the owner and gates substrings, while the
second fixed key against the same ciphertext yields the wrong-key error. -/
theorem decrypt_fixed_vectors :
    ∃ pk pk2 : PrivateKey,
      PrivateKey.from_string correctPrivateKeyText = some pk ∧
      pk.decrypt fixedCiphertextText = .ok expectedPlaintextText ∧
      containsSubstring expectedPlaintextText ownerSubText ∧
      containsSubstring expectedPlaintextText gatesSubText ∧
      PrivateKey.from_string incorrectPrivateKeyText = some pk2 ∧
      pk2.decrypt fixedCiphertextText = .error incorrectViewKeyMsg := by
  refine ⟨⟨⟨correctKeyBody⟩⟩, ⟨⟨incorrectKeyBody⟩⟩, by decide, by decide, ?_, ?_,
    by decide, by decide⟩
  · exact ⟨"\x7b",
      ", gates: 1u64.private, data: \x7b\x7d, _nonce: 4447510634654730534613001085815220248957154008834207042015711498717088580021group.public\x7d",
      by decide⟩
  · exact ⟨"\x7bowner: aleo1snwe5h89dv6hv2q2pl3v8l9cweeuwrgejmlnwza6ndacygznlu9sjt8pgv.private, ",
      ", data: \x7b\x7d, _nonce: 4447510634654730534613001085815220248957154008834207042015711498717088580021group.public\x7d",
      by decide⟩
